import Mathlib

/-!
# Verification of the Spotify data pipeline (pipeline.py)

A shallow embedding of the pandas-based ETL script `pipeline.py`.

A pandas `DataFrame` is modelled as a list of column names together with a
list of rows, each row a list of cell values.  Cell values are modelled by
the inductive type `Value`:

* numeric cells (pandas int64 / Int64 / Float64) are modelled as integers —
  every numeric comparison in the program is against the integer thresholds
  180 and 50, and float-specific behaviour (rounding, NaN arithmetic) is
  never exercised; a float `NaN` / pandas `NA` / `NaT` missing cell is
  modelled uniformly as `Value.na`;
* datetime cells are modelled as a year/month/day triple;
* string and boolean cells are modelled directly.

Operations that the Python runtime can abort with an exception (`KeyError`
on a missing column, `TypeError` on an unordered comparison) return
`Option`; `none` is the "exception raised" outcome, which each pipeline
stage catches with its `try/except` block.
-/

set_option linter.unusedVariables false

/-- A cell value of a pandas table. -/
inductive Value where
  | str  : String → Value
  | num  : Int → Value
  | bool : Bool → Value
  | date : Nat → Nat → Nat → Value
  | na   : Value
deriving DecidableEq, Repr

/-- A pandas `DataFrame`: named columns and positional rows. -/
structure DataFrame where
  cols : List String
  rows : List (List Value)
deriving DecidableEq, Repr

/-- Rectangularity of a frame: every row has one cell per column.  Frames
built by pandas are rectangular by construction. -/
def DataFrame.WF (df : DataFrame) : Prop :=
  ∀ r ∈ df.rows, r.length = df.cols.length

instance (df : DataFrame) : Decidable df.WF := by
  unfold DataFrame.WF; infer_instance

/-! ## String helpers (Python `str.strip` / `str.title`, numeric and date parsing) -/

/-- Drop leading and trailing whitespace (Python `str.strip()`). -/
def trimChars (l : List Char) : List Char :=
  ((l.dropWhile (·.isWhitespace)).reverse.dropWhile (·.isWhitespace)).reverse

/-- Python `str.title()`: an alphabetic character is upper-cased when the
previous character is not alphabetic and lower-cased otherwise. -/
def titleCore : List Char → Bool → List Char
  | [], _ => []
  | c :: cs, prevAlpha =>
    (if c.isAlpha then (if prevAlpha then c.toLower else c.toUpper) else c)
      :: titleCore cs c.isAlpha

/-- Python `.str.strip().str.title()` applied to one string cell. -/
def pyStripTitle (s : String) : String :=
  String.mk (titleCore (trimChars s.data) false)

/-- Decimal digit parser used by the numeric and date parsers. -/
def parseNatCore : List Char → Nat → Option Nat
  | [], acc => some acc
  | c :: cs, acc =>
    if c.isDigit then parseNatCore cs (acc * 10 + (c.toNat - 48)) else none

/-- Parse a non-empty all-digit character list as a natural number. -/
def parseNatChars (l : List Char) : Option Nat :=
  if l.isEmpty then none else parseNatCore l 0

/-- Parse an optionally `-`-signed integer literal (the integer fragment of
`pd.to_numeric`'s string parser; the dataset and tests only carry integer
literals in numeric columns). -/
def parseIntChars : List Char → Option Int
  | '-' :: rest => (parseNatChars rest).map (fun n => -(n : Int))
  | l => (parseNatChars l).map (fun n => (n : Int))

/-- Split a character list on `'-'` (for ISO `YYYY-MM-DD` date strings). -/
def splitOnDash : List Char → List (List Char)
  | [] => [[]]
  | c :: cs =>
    if c = '-' then [] :: splitOnDash cs
    else match splitOnDash cs with
      | [] => [[c]]
      | h :: t => (c :: h) :: t

/-- Gregorian leap year. -/
def isLeap (y : Nat) : Bool :=
  y % 4 = 0 && (y % 100 ≠ 0 || y % 400 = 0)

/-- Days in a month of the Gregorian calendar. -/
def daysInMonth (y m : Nat) : Nat :=
  if m = 2 then (if isLeap y then 29 else 28)
  else if m = 4 || m = 6 || m = 9 || m = 11 then 30
  else 31

/-- Validity of a calendar date. -/
def validDate (y m d : Nat) : Bool :=
  1 ≤ m && m ≤ 12 && 1 ≤ d && d ≤ daysInMonth y m

/-- Parse an ISO `YYYY-MM-DD` string to a valid calendar date.  `pd.to_datetime`
accepts further formats and bounds timestamps to 1677–2262; the extra formats
and bounds are not exercised by this repository and every successful parse it
performs yields a valid calendar date, which is the property relied on here. -/
def parseDateChars (l : List Char) : Option (Nat × Nat × Nat) :=
  match splitOnDash l with
  | [ys, ms, ds] =>
    match parseNatChars ys, parseNatChars ms, parseNatChars ds with
    | some y, some m, some d => if validDate y m d then some (y, m, d) else none
    | _, _, _ => none
  | _ => none

/-! ## Cell-level operations of `clean_data` and `transform_data` -/

/-- Model of `pd.to_datetime(col, errors="coerce")` on one cell: strings parse to a
date or coerce to missing; dates pass through; everything else (numbers
would be read as nanosecond epochs, an unexercised path) is modelled as
missing.  Either way the outcome is a valid date or a missing value. -/
def pdToDatetime : Value → Value
  | .str s =>
    match parseDateChars (trimChars s.data) with
    | some (y, m, d) => .date y m d
    | none => .na
  | .date y m d => .date y m d
  | _ => .na

/-- Model of `pd.to_numeric(col, errors="coerce")` on one cell (the subsequent
`astype("Float64")` / `astype("Int64")` casts are value-level identities in
the integer model): numbers pass through, booleans become 0/1, numeric
strings parse, everything malformed coerces to missing. -/
def pdToNumeric : Value → Value
  | .num n => .num n
  | .bool b => .num (if b then 1 else 0)
  | .str s =>
    match parseIntChars (trimChars s.data) with
    | some n => .num n
    | none => .na
  | _ => .na

/-- Model of `col.astype(bool)` on one cell: Python truthiness.  A missing cell from
the left join is a float `NaN`, and `bool(nan)` is `True`. -/
def astypeBool : Value → Value
  | .bool b => .bool b
  | .num n => .bool (decide (n ≠ 0))
  | .str s => .bool (decide (s ≠ ""))
  | .date _ _ _ => .bool true
  | .na => .bool true

/-- Model of `col.str.strip().str.title()` on one cell: the `.str` accessor maps
non-string cells to missing. -/
def strStripTitle : Value → Value
  | .str s => .str (pyStripTitle s)
  | _ => .na

/-- Model of `tracks["duration_sec"] <= 180` on one cell.  Numbers compare, a missing
cell propagates to a missing comparison result, booleans are the numbers
0/1 (both `≤ 180`); comparing a string or datetime cell with an integer
raises `TypeError`, modelled as `none`. -/
def valLe180 : Value → Option Value
  | .num n => some (.bool (decide (n ≤ 180)))
  | .na => some .na
  | .bool _ => some (.bool true)
  | .str _ => none
  | .date _ _ _ => none

/-- Model of `tracks["explicit"] == False` on one cell: `False == False` and
`0 == False` hold in Python; a missing cell yields a missing/false mask
entry (object-dtype `NaN == False` is `False`, nullable `NA == False` is
`NA`; both exclude the row from a boolean mask, so the missing outcome is
used). Equality never raises. -/
def valEqFalse : Value → Value
  | .bool b => .bool (!b)
  | .num n => .bool (decide (n = 0))
  | .str _ => .bool false
  | .date _ _ _ => .bool false
  | .na => .na

/-- Model of `tracks["track_popularity"] > 50` on one cell: numbers compare, missing
propagates, booleans are 0/1 (never `> 50`); ordering a string or datetime
cell against an integer raises `TypeError`, modelled as `none`. -/
def valGt50 : Value → Option Value
  | .num n => some (.bool (decide (50 < n)))
  | .na => some .na
  | .bool _ => some (.bool false)
  | .str _ => none
  | .date _ _ _ => none

/-- Kleene conjunction of mask cells (`&` on nullable boolean columns). -/
def kleeneAnd : Value → Value → Value
  | .bool false, _ => .bool false
  | _, .bool false => .bool false
  | .bool true, .bool true => .bool true
  | _, _ => .na

/-- Elementwise application of a cell operation that may raise; the whole
column operation raises as soon as one cell does. -/
def mapOption (f : Value → Option Value) : List Value → Option (List Value)
  | [] => some []
  | v :: vs =>
    match f v, mapOption f vs with
    | some w, some ws => some (w :: ws)
    | _, _ => none

/-! ## DataFrame operations -/

/-- Position of a column name (leftmost occurrence). -/
def colIdx (df : DataFrame) (c : String) : Option Nat :=
  df.cols.findIdx? (· = c)

/-- Column access `df[c]` as a list of cells; `none` is a `KeyError`. -/
def getCol (df : DataFrame) (c : String) : Option (List Value) :=
  (colIdx df c).map (fun i => df.rows.map (fun r => r.getD i .na))

/-- Column assignment `df[c] = vs`: replace the column when the name exists, append a fresh
column otherwise (pandas column assignment). -/
def setCol (df : DataFrame) (c : String) (vs : List Value) : DataFrame :=
  match colIdx df c with
  | some i => ⟨df.cols, List.zipWith (fun r v => r.set i v) df.rows vs⟩
  | none => ⟨df.cols ++ [c], List.zipWith (fun r v => r ++ [v]) df.rows vs⟩

/-- Column update `df[c] = f(df[c])` for a total cell operation; `none` is the `KeyError`
raised when the column is missing. -/
def mapCol (df : DataFrame) (c : String) (f : Value → Value) : Option DataFrame :=
  match colIdx df c with
  | none => none
  | some i => some ⟨df.cols, df.rows.map (fun r => r.set i (f (r.getD i .na)))⟩

/-- Model of `df.rename(columns={old: new})`. -/
def renameCol (df : DataFrame) (old new : String) : DataFrame :=
  ⟨df.cols.map (fun c => if c = old then new else c), df.rows⟩

/-- Projection `df[[c₁, …, cₙ]]`: column projection; `none` is the `KeyError` raised
when a requested column is missing. -/
def selectCols (df : DataFrame) (cs : List String) : Option DataFrame :=
  if cs.all (fun c => (colIdx df c).isSome) then
    some ⟨cs, df.rows.map (fun r => cs.map (fun c => r.getD ((colIdx df c).getD 0) .na))⟩
  else none

/-- The left operand's column names after `pd.merge` suffixing: a non-key
name also present on the right side gains the suffix `_x`. -/
def suffixedLeftCols (left right : DataFrame) (key : String) : List String :=
  left.cols.map (fun c =>
    if decide (c ≠ key) && right.cols.contains c then c ++ "_x" else c)

/-- The positions of the right operand's non-key columns. -/
def rightKeepIdxs (right : DataFrame) (ri : Nat) : List Nat :=
  (List.range right.cols.length).filter (fun i => decide (i ≠ ri))

/-- The right operand's non-key column names after `pd.merge` suffixing: a
name also present on the left side gains the suffix `_y`. -/
def suffixedRightCols (left right : DataFrame) (ri : Nat) : List String :=
  (rightKeepIdxs right ri).map (fun i =>
    if left.cols.contains (right.cols.getD i "") then right.cols.getD i "" ++ "_y"
    else right.cols.getD i "")

/-- The merged rows contributed by one left row: one row per matching right
row, or a single row padded with missing cells when no right row matches. -/
def mergeRowFor (right : DataFrame) (li ri : Nat) (l : List Value) : List (List Value) :=
  match right.rows.filter (fun r => decide (r.getD ri .na = l.getD li .na)) with
  | [] => [l ++ (rightKeepIdxs right ri).map (fun _ => Value.na)]
  | ms => ms.map (fun r => l ++ (rightKeepIdxs right ri).map (fun i => r.getD i .na))

/-- Model of `pd.merge(left, right, on=key, how="left")`: a left join.  Column names
shared by both operands (other than the key) are suffixed `_x` on the left
side and `_y` on the right side.  Every left row is kept — once per
matching right row, or once with missing cells in the right-only positions
when no right row matches.  Right rows with an unmatched key are dropped.
`none` is the error raised when the key column is missing on either side. -/
def mergeLeft (left right : DataFrame) (key : String) : Option DataFrame :=
  match colIdx left key, colIdx right key with
  | some li, some ri =>
    some ⟨suffixedLeftCols left right key ++ suffixedRightCols left right ri,
          (left.rows.map (mergeRowFor right li ri)).flatten⟩
  | _, _ => none

/-! ## The pipeline stages (`pipeline.py`) -/

/-- The album projection of `clean_data` (pipeline.py line 62). -/
def cleanCols : List String :=
  ["track_id", "track_name", "release_date", "label", "duration_sec"]

/-- Body of `clean_data` after the in-place rename (pipeline.py lines 62–78):
project the albums table, left-merge the tracks onto it, then coerce and
normalize the six columns in source order.  `none` is the caught-exception
path (`except` at line 79): the function then returns Python `None`. -/
def cleanSteps (tracks1 albums : DataFrame) : Option DataFrame :=
  match selectCols albums cleanCols with
  | none => none
  | some albums1 =>
    match mergeLeft albums1 tracks1 "track_id" with
    | none => none
    | some result =>
      (mapCol result "release_date" pdToDatetime).bind fun r1 =>
      (mapCol r1 "duration_sec" pdToNumeric).bind fun r2 =>
      (mapCol r2 "track_popularity" pdToNumeric).bind fun r3 =>
      (mapCol r3 "explicit" astypeBool).bind fun r4 =>
      (mapCol r4 "track_name" strStripTitle).bind fun r5 =>
      mapCol r5 "label" strStripTitle

/-- Model of `clean_data(tracks, albums)` (pipeline.py lines 49–80).  The first
component is the returned frame (`none` when the `except` branch returns
`None`); the second component is the caller's `tracks` object after the
call — `tracks.rename(..., inplace=True)` at line 61 mutates it before
anything can raise. -/
def clean_data (tracks albums : DataFrame) : Option DataFrame × DataFrame :=
  let tracks1 := renameCol tracks "id" "track_id"
  (cleanSteps tracks1 albums, tracks1)

/-- Model of `transform_data(tracks)` (pipeline.py lines 83–100).  The first
component is the returned frame (`none` when the `except` branch returns
`None`); the second component is the caller's `tracks` object after the
call — the assignment `tracks["radio_mix"] = ...` at line 94 mutates it,
unless reading `duration_sec` already raised. -/
def transform_data (tracks : DataFrame) : Option DataFrame × DataFrame :=
  match getCol tracks "duration_sec" with
  | none => (none, tracks)
  | some durs =>
    match mapOption valLe180 durs with
    | none => (none, tracks)
    | some rmix =>
      let tracks1 := setCol tracks "radio_mix" rmix
      match getCol tracks1 "explicit", getCol tracks1 "track_popularity" with
      | some exps, some pops =>
        match mapOption valGt50 pops with
        | none => (none, tracks1)
        | some pmask =>
          let mask := List.zipWith kleeneAnd (exps.map valEqFalse) pmask
          (some ⟨tracks1.cols,
            ((tracks1.rows.zip mask).filter
              (fun p => decide (p.2 = Value.bool true))).map Prod.fst⟩,
           tracks1)
      | _, _ => (none, tracks1)

/-! ## Persistence (`load_to_db`) and the SQLite store -/

/-- The SQLite file: a name-to-table store. -/
structure DbStore where
  tables : List (String × DataFrame)
deriving DecidableEq, Repr

/-- Model of `to_sql(name, conn, if_exists="replace")`: drop any table of that name
and recreate it from the frame. -/
def setTable (s : DbStore) (name : String) (df : DataFrame) : DbStore :=
  ⟨(s.tables.filter (fun p => decide (p.1 ≠ name))) ++ [(name, df)]⟩

/-- Look a table up by name. -/
def getTable (s : DbStore) (name : String) : Option DataFrame :=
  (s.tables.find? (fun p => decide (p.1 = name))).map Prod.snd

/-- Model of `load_to_db(tracks)` (pipeline.py lines 103–116): replace the
`spotify_tracks` table of the store with the given frame. -/
def load_to_db (tracks : DataFrame) (s : DbStore) : DbStore :=
  setTable s "spotify_tracks" tracks

/-! ## The entry point (`main`) -/

/-- The pipeline stages, for recording which ones a run executes. -/
inductive Stage where
  | download | load | clean | transform | persist | visualize
deriving DecidableEq, Repr

/-- The environment of one run: the outcomes of the external effects.
`downloadFails` and `vizFails` only change what is printed — the stages
catch their exceptions — so they do not appear in `mainRun`'s result;
`loadResult` is what `load_data` returns (`none` when `read_csv` raised and
the `except` branch returned Python `None`); `dbFails` tells whether the
SQLite write raises. -/
structure Env where
  downloadFails : Bool
  loadResult : Option (DataFrame × DataFrame)
  dbFails : Bool
  vizFails : Bool

/-- Model of `load_data()` (pipeline.py lines 31–46): returns the two parsed frames,
or `None` after printing when reading raised. -/
def load_data (env : Env) : Option (DataFrame × DataFrame) :=
  env.loadResult

/-- Model of `main()` (pipeline.py lines 160–172), returning the process exit
status, the list of stages that were entered, and the final store.

* `download_kaggle_dataset` and `load_data` always run and catch their own
  exceptions.
* When `load_data` returned `None`, the tuple unpacking
  `albums, tracks = load_data()` raises `TypeError` inside `main`'s own
  `try`, whose `except` prints and falls through — the remaining stages
  never run and the interpreter exits with status 0.
* Otherwise every stage is entered: `clean_data` catches internally and may
  return `None`; `transform_data(None)` raises on subscripting `None` and
  catches internally, returning `None`; `load_to_db(None)` raises on
  `None.to_sql` and catches internally, leaving the store unchanged, as
  does a failing SQLite write; `visualize_data` catches internally.
  The interpreter exits with status 0. -/
def mainRun (env : Env) (store : DbStore) : Nat × List Stage × DbStore :=
  match load_data env with
  | none => (0, [Stage.download, Stage.load], store)
  | some (albums, tracks) =>
    let cleaned := (clean_data tracks albums).1
    let transformed :=
      match cleaned with
      | some c => (transform_data c).1
      | none => none
    let store1 :=
      if env.dbFails then store
      else
        match transformed with
        | some t => load_to_db t store
        | none => store
    (0, [Stage.download, Stage.load, Stage.clean, Stage.transform,
         Stage.persist, Stage.visualize], store1)

/-! ## Helper lemmas -/

theorem mapOption_eq_some {f : Value → Option Value} :
    ∀ {l l' : List Value}, mapOption f l = some l' →
      l' = l.map (fun v => (f v).getD .na) := by
  intro l
  induction l with
  | nil => intro l' h; cases h; rfl
  | cons v vs ih =>
    intro l' h
    simp only [mapOption] at h
    cases hv : f v with
    | none => rw [hv] at h; cases h
    | some w =>
      rw [hv] at h
      cases hvs : mapOption f vs with
      | none => rw [hvs] at h; cases h
      | some ws =>
        rw [hvs] at h
        cases h
        simp [ih hvs, hv]

theorem zipWith_same_map {α β γ δ : Type} (f : β → γ → δ) (g : α → β) (h : α → γ) :
    ∀ l : List α, List.zipWith f (l.map g) (l.map h) = l.map (fun a => f (g a) (h a))
  | [] => rfl
  | a :: l => by simp [List.zipWith, zipWith_same_map f g h l]

theorem zipWith_self_map {α β γ : Type} (f : α → β → γ) (g : α → β) :
    ∀ l : List α, List.zipWith f l (l.map g) = l.map (fun a => f a (g a))
  | [] => rfl
  | a :: l => by simp [List.zipWith, zipWith_self_map f g l]

theorem zip_self_map_filter {α : Type} (F : α → Value) (c : Value) :
    ∀ rows : List α,
      (((rows.zip (rows.map F)).filter (fun p => decide (p.2 = c))).map Prod.fst)
        = rows.filter (fun r => decide (F r = c))
  | [] => rfl
  | r :: rows => by
    simp only [List.map, List.zip_cons_cons, List.filter_cons]
    by_cases hc : F r = c
    · simp [hc, zip_self_map_filter F c rows]
    · simp [hc, zip_self_map_filter F c rows]

theorem colIdx_lt_length {df : DataFrame} {c : String} {i : Nat}
    (h : colIdx df c = some i) : i < df.cols.length := by
  unfold colIdx at h
  rw [List.findIdx?_eq_some_iff_getElem] at h
  exact h.1

theorem colIdx_getD {df : DataFrame} {c : String} {i : Nat}
    (h : colIdx df c = some i) : df.cols.getD i "" = c := by
  unfold colIdx at h
  rw [List.findIdx?_eq_some_iff_getElem] at h
  obtain ⟨hlt, hp, _⟩ := h
  simp only [decide_eq_true_eq] at hp
  simp [List.getD_eq_getElem?_getD, List.getElem?_eq_getElem hlt, hp]

theorem colIdx_mem {df : DataFrame} {c : String} {i : Nat}
    (h : colIdx df c = some i) : c ∈ df.cols := by
  have hlt := colIdx_lt_length h
  have hg := colIdx_getD h
  rw [List.getD_eq_getElem?_getD, List.getElem?_eq_getElem hlt] at hg
  simp only [Option.getD_some] at hg
  exact hg ▸ List.getElem_mem hlt

theorem kleeneAnd_eq_true {x y : Value} (h : kleeneAnd x y = .bool true) :
    x = .bool true ∧ y = .bool true := by
  rcases x with s | n | b | ⟨dy, dm, dd⟩ | _ <;>
    rcases y with s2 | n2 | b2 | ⟨ey, em, ed⟩ | _ <;>
    (try cases b) <;> (try cases b2) <;> simp_all [kleeneAnd]

theorem valEqFalse_eq_true {v : Value} (h : valEqFalse v = .bool true) :
    v = .bool false ∨ v = .num 0 := by
  rcases v with s | n | b | ⟨dy, dm, dd⟩ | _ <;> (try cases b) <;> simp_all [valEqFalse]

theorem valGt50_eq_true {v : Value} (h : (valGt50 v).getD .na = .bool true) :
    ∃ n : Int, v = .num n ∧ 50 < n := by
  rcases v with s | n | b | ⟨dy, dm, dd⟩ | _ <;> (try cases b) <;> simp_all [valGt50]

theorem getD_append_left {l l' : List Value} {i : Nat} (h : i < l.length) :
    (l ++ l').getD i .na = l.getD i .na := by
  simp [List.getD_eq_getElem?_getD, List.getElem?_append_left h]

theorem getD_concat_self {l : List Value} {v : Value} :
    (l ++ [v]).getD l.length .na = v := by
  simp [List.getD_eq_getElem?_getD, List.getElem?_concat_length]

theorem getD_append_big {l : List Value} {v : Value} {j : Nat} (h : l.length < j) :
    (l ++ [v]).getD j .na = l.getD j .na := by
  rw [List.getD_eq_getElem?_getD, List.getD_eq_getElem?_getD,
    List.getElem?_eq_none (l := l ++ [v]) (by simp; omega),
    List.getElem?_eq_none (l := l) (by omega)]

theorem getD_set_self {l : List Value} {v : Value} {i : Nat} (h : i < l.length) :
    (l.set i v).getD i .na = v := by
  simp [List.getD_eq_getElem?_getD, List.getElem?_set_self h]

theorem getD_set_ne {l : List Value} {v : Value} {i j : Nat} (h : i ≠ j) :
    (l.set i v).getD j .na = l.getD j .na := by
  simp [List.getD_eq_getElem?_getD, List.getElem?_set_ne h]

/-- Applying `setCol` with a column derived rowwise from the frame itself: the new
column's name resolves to an index `ci`, other columns keep their index,
and every row of the result is a row of the input with the derived cell at
`ci` and all other positions unchanged. -/
theorem setCol_self_link (df : DataFrame) (hWF : df.WF) (c : String)
    (g : List Value → Value) :
    ∃ ci, colIdx (setCol df c (df.rows.map g)) c = some ci ∧
      (∀ c' i, colIdx df c' = some i → c' ≠ c →
          colIdx (setCol df c (df.rows.map g)) c' = some i) ∧
      ∀ r ∈ (setCol df c (df.rows.map g)).rows, ∃ r0 ∈ df.rows,
        r.getD ci .na = g r0 ∧ ∀ j, j ≠ ci → r.getD j .na = r0.getD j .na := by
  cases hci : colIdx df c with
  | some i =>
    simp only [setCol, hci]
    refine ⟨i, hci, fun c' i' h' _ => h', ?_⟩
    intro r hr
    rw [zipWith_self_map] at hr
    obtain ⟨r0, hr0, rfl⟩ := List.mem_map.mp hr
    have hilt : i < r0.length := by rw [hWF r0 hr0]; exact colIdx_lt_length hci
    exact ⟨r0, hr0, getD_set_self hilt, fun j hj => getD_set_ne (Ne.symm hj)⟩
  | none =>
    simp only [setCol, hci]
    refine ⟨df.cols.length, ?_, ?_, ?_⟩
    · unfold colIdx at hci ⊢
      simp only [List.findIdx?_append, hci, Option.none_or]
      simp
    · intro c' i' h' hne
      unfold colIdx at h' ⊢
      simp [List.findIdx?_append, h']
    · intro r hr
      rw [zipWith_self_map] at hr
      obtain ⟨r0, hr0, rfl⟩ := List.mem_map.mp hr
      have hlen : r0.length = df.cols.length := hWF r0 hr0
      refine ⟨r0, hr0, by rw [← hlen]; exact getD_concat_self, ?_⟩
      intro j hj
      rcases Nat.lt_or_ge j df.cols.length with hlt | hge
      · exact getD_append_left (by omega)
      · have : df.cols.length < j := by omega
        rw [← hlen] at this
        exact getD_append_big this

theorem getCol_some {df : DataFrame} {c : String} {vs : List Value}
    (h : getCol df c = some vs) :
    ∃ i, colIdx df c = some i ∧ vs = df.rows.map (fun r => r.getD i .na) := by
  unfold getCol at h
  rw [Option.map_eq_some'] at h
  obtain ⟨i, hi, hv⟩ := h
  exact ⟨i, hi, hv.symm⟩

/-- What a successful `transform_data` run looks like: the caller's table
gained the rowwise `radio_mix` column, and the returned table is the
mutated table filtered by the explicit/popularity mask. -/
theorem transform_data_some {tracks out : DataFrame}
    (h : (transform_data tracks).1 = some out) :
    ∃ di,
      colIdx tracks "duration_sec" = some di ∧
      (transform_data tracks).2
          = setCol tracks "radio_mix"
              (tracks.rows.map (fun r => (valLe180 (r.getD di .na)).getD Value.na)) ∧
      ∃ ei pi,
        colIdx (transform_data tracks).2 "explicit" = some ei ∧
        colIdx (transform_data tracks).2 "track_popularity" = some pi ∧
        out.cols = (transform_data tracks).2.cols ∧
        out.rows = (transform_data tracks).2.rows.filter
          (fun r => decide (kleeneAnd (valEqFalse (r.getD ei .na))
              ((valGt50 (r.getD pi .na)).getD Value.na) = Value.bool true)) := by
  cases hdur : getCol tracks "duration_sec" with
  | none => simp only [transform_data, hdur] at h; cases h
  | some durs =>
    cases hmo : mapOption valLe180 durs with
    | none => simp only [transform_data, hdur, hmo] at h; cases h
    | some rmix =>
      obtain ⟨di, hdi, hdurs⟩ := getCol_some hdur
      have hrm : rmix
          = tracks.rows.map (fun r => (valLe180 (r.getD di .na)).getD Value.na) := by
        rw [mapOption_eq_some hmo, hdurs, List.map_map]
        rfl
      cases hexp : getCol (setCol tracks "radio_mix" rmix) "explicit" with
      | none =>
        simp only [transform_data, hdur, hmo, hexp] at h
        cases h
      | some exps =>
        cases hpop : getCol (setCol tracks "radio_mix" rmix) "track_popularity" with
        | none => simp only [transform_data, hdur, hmo, hexp, hpop] at h; cases h
        | some pops =>
          cases hpm : mapOption valGt50 pops with
          | none => simp only [transform_data, hdur, hmo, hexp, hpop, hpm] at h; cases h
          | some pmask =>
            simp only [transform_data, hdur, hmo, hexp, hpop, hpm] at h ⊢
            obtain ⟨ei, hei, hexps⟩ := getCol_some hexp
            obtain ⟨pi, hpi, hpops⟩ := getCol_some hpop
            refine ⟨di, hdi, by rw [hrm], ei, pi, hei, hpi, ?_, ?_⟩
            · cases h; rfl
            · cases h
              have hpm2 : pmask
                  = (setCol tracks "radio_mix" rmix).rows.map
                      (fun r => (valGt50 (r.getD pi .na)).getD Value.na) := by
                rw [mapOption_eq_some hpm, hpops, List.map_map]
                rfl
              rw [hexps, hpm2, List.map_map]
              rw [show ((valEqFalse ∘ fun r => r.getD ei Value.na)
                    = fun r : List Value => valEqFalse (r.getD ei Value.na)) from rfl]
              rw [zipWith_same_map]
              exact zip_self_map_filter _ _ _

theorem selectCols_some {df out : DataFrame} {cs : List String}
    (h : selectCols df cs = some out) :
    out.cols = cs ∧ ∀ r ∈ out.rows, r.length = cs.length := by
  unfold selectCols at h
  split at h
  · cases h
    refine ⟨rfl, fun r hr => ?_⟩
    obtain ⟨r0, _, rfl⟩ := List.mem_map.mp hr
    simp
  · cases h

theorem mergeLeft_some {L R m : DataFrame} {key : String} {li ri : Nat}
    (hli : colIdx L key = some li) (hri : colIdx R key = some ri)
    (h : mergeLeft L R key = some m) :
    m.cols = suffixedLeftCols L R key ++ suffixedRightCols L R ri ∧
    m.rows = (L.rows.map (mergeRowFor R li ri)).flatten := by
  simp only [mergeLeft, hli, hri] at h
  cases h
  exact ⟨rfl, rfl⟩

theorem mergeRowFor_mem {R : DataFrame} {li ri : Nat} {l rm : List Value}
    (h : rm ∈ mergeRowFor R li ri l) : ∃ rest, rm = l ++ rest := by
  unfold mergeRowFor at h
  split at h
  · simp only [List.mem_singleton] at h
    exact ⟨_, h⟩
  · obtain ⟨r, _, rfl⟩ := List.mem_map.mp h
    exact ⟨_, rfl⟩

theorem mergeRowFor_self (R : DataFrame) (li ri : Nat) (l : List Value) :
    ∃ rest, (l ++ rest) ∈ mergeRowFor R li ri l := by
  cases hf : R.rows.filter (fun r => decide (r.getD ri .na = l.getD li .na)) with
  | nil =>
    refine ⟨(rightKeepIdxs R ri).map (fun _ => Value.na), ?_⟩
    simp only [mergeRowFor, hf]
    exact List.mem_singleton.mpr rfl
  | cons r ms =>
    refine ⟨(rightKeepIdxs R ri).map (fun i => r.getD i .na), ?_⟩
    simp only [mergeRowFor, hf]
    exact List.mem_map_of_mem _ (List.mem_cons_self r ms)

theorem mergeRowFor_nullfill {R : DataFrame} {li ri : Nat} {l : List Value}
    (h : ∀ r ∈ R.rows, ¬ r.getD ri .na = l.getD li .na) :
    (l ++ (rightKeepIdxs R ri).map (fun _ => Value.na)) ∈ mergeRowFor R li ri l := by
  have hf : R.rows.filter (fun r => decide (r.getD ri .na = l.getD li .na)) = [] := by
    rw [List.filter_eq_nil_iff]
    intro r hr
    simpa using h r hr
  simp only [mergeRowFor, hf]
  exact List.mem_singleton.mpr rfl

theorem getD_str_eq_getElem {l : List String} {j : Nat} (hj : j < l.length) :
    l.getD j "" = l[j] := by
  rw [List.getD_eq_getElem?_getD, List.getElem?_eq_getElem hj]
  rfl

theorem suffixedLeftCols_mem_x {L R : DataFrame} {key c : String}
    (hck : c ≠ key) (hcl : c ∈ L.cols) (hcr : c ∈ R.cols) :
    (c ++ "_x") ∈ suffixedLeftCols L R key := by
  unfold suffixedLeftCols
  have he : (if decide (c ≠ key) && R.cols.contains c then c ++ "_x" else c)
      = c ++ "_x" := by
    simp [hck, hcr]
  rw [← he]
  exact List.mem_map_of_mem _ hcl

theorem suffixedRightCols_mem_y {L R : DataFrame} {key c : String} {ri : Nat}
    (hri : colIdx R key = some ri)
    (hck : c ≠ key) (hcl : c ∈ L.cols) (hcr : c ∈ R.cols) :
    (c ++ "_y") ∈ suffixedRightCols L R ri := by
  obtain ⟨j, hj, hjc⟩ := List.getElem_of_mem hcr
  have hkey : R.cols.getD ri "" = key := colIdx_getD hri
  have hjne : j ≠ ri := by
    intro e
    apply hck
    have hjk : R.cols.getD j "" = key := by rw [e]; exact hkey
    rw [getD_str_eq_getElem hj] at hjk
    rw [← hjc]
    exact hjk
  have hjmem : j ∈ rightKeepIdxs R ri := by
    unfold rightKeepIdxs
    rw [List.mem_filter]
    exact ⟨List.mem_range.mpr hj, by simp [hjne]⟩
  have hgetD : R.cols.getD j "" = c := by rw [getD_str_eq_getElem hj]; exact hjc
  unfold suffixedRightCols
  have he : (if L.cols.contains (R.cols.getD j "") then R.cols.getD j "" ++ "_y"
      else R.cols.getD j "") = c ++ "_y" := by
    rw [hgetD]
    simp [hcl]
  rw [← he]
  exact List.mem_map_of_mem _ hjmem

/-! ## Concrete tables

`sampleTracks`/`sampleAlbums` are the fixtures of the repository's own
`test.py` (`setUp`).  `okTracks` is a track table whose non-key column
names do not collide with the album projection, so cleaning succeeds on
it; `cleanedOk` and `transformedOk` are the corresponding cleaned and
transformed tables. -/

def sampleTracks : DataFrame :=
  ⟨["track_id", "track_name", "release_date", "label", "duration_sec",
    "track_popularity", "explicit"],
   [[.num 1, .str " Song One ", .str "2023-06-01", .str " Label1 ", .str "180",
     .num 55, .bool false],
    [.num 2, .str "SONG two", .str "invalid_date", .str "label2", .str "250",
     .num 30, .bool true],
    [.num 3, .str "song THREE", .str "2022-07-15", .str "LABEL3", .na,
     .num 80, .bool false]]⟩

def sampleAlbums : DataFrame :=
  ⟨["track_id", "track_name", "release_date", "label", "duration_sec"],
   [[.num 1, .str " Song One ", .str "2023-06-01", .str " Label1 ", .str "180"],
    [.num 2, .str "SONG two", .str "invalid_date", .str "label2", .str "250"],
    [.num 3, .str "song THREE", .str "2022-07-15", .str "LABEL3", .str "300"]]⟩

def okTracks : DataFrame :=
  ⟨["id", "track_popularity", "explicit"],
   [[.num 1, .num 55, .bool false],
    [.num 2, .num 30, .bool true],
    [.num 3, .num 80, .bool false]]⟩

def cleanedOk : DataFrame :=
  ⟨["track_id", "track_name", "release_date", "label", "duration_sec",
    "track_popularity", "explicit"],
   [[.num 1, .str "Song One", .date 2023 6 1, .str "Label1", .num 180,
     .num 55, .bool false],
    [.num 2, .str "Song Two", .na, .str "Label2", .num 250,
     .num 30, .bool true],
    [.num 3, .str "Song Three", .date 2022 7 15, .str "Label3", .num 300,
     .num 80, .bool false]]⟩

def transformedOk : DataFrame :=
  ⟨["track_id", "track_name", "release_date", "label", "duration_sec",
    "track_popularity", "explicit", "radio_mix"],
   [[.num 1, .str "Song One", .date 2023 6 1, .str "Label1", .num 180,
     .num 55, .bool false, .bool true],
    [.num 3, .str "Song Three", .date 2022 7 15, .str "Label3", .num 300,
     .num 80, .bool false, .bool false]]⟩

/-! ## The claims -/

/-- Claim C6.  Persisting is idempotent: for every transformed table, calling
`load_to_db` twice in succession with the same table leaves the store's
`spotify_tracks` table with exactly the same row count and content as
calling it once — `if_exists="replace"` drops and recreates the table, it
never appends. -/
theorem C6_load_to_db_idempotent (t : DataFrame) (s : DbStore) :
    load_to_db t (load_to_db t s) = load_to_db t s ∧
    getTable (load_to_db t s) "spotify_tracks" = some t := by
  constructor
  · simp only [load_to_db, setTable, List.filter_append, List.filter_filter]
    congr 2
    simp
  · simp only [load_to_db, setTable, getTable, List.find?_append]
    have hnone : (s.tables.filter
        (fun p => decide (p.1 ≠ "spotify_tracks"))).find?
          (fun p => decide (p.1 = "spotify_tracks")) = none := by
      rw [List.find?_eq_none]
      intro x hx
      rw [List.mem_filter] at hx
      simpa using of_decide_eq_true hx.2
    rw [hnone]
    simp

/-- Claim C7.  For every execution environment — whatever the download, file
read, SQLite write, or chart rendering does — every stage catches its own
exceptions, nothing escapes the entry point, and the process exit status
is 0. -/
theorem C7_always_exits_zero (env : Env) (store : DbStore) :
    (mainRun env store).1 = 0 := by
  cases h : load_data env with
  | none => simp [mainRun, h]
  | some p => obtain ⟨a, t⟩ := p; simp [mainRun, h]

/-- Claim C10.  When loading fails, `load_data` returns `None`; `main`'s
tuple unpacking then raises inside `main`'s own `try`, whose handler
absorbs the error — so the clean, transform, persist, and visualize stages
never run, the store is untouched, and the process still exits 0. -/
theorem C10_load_failure_skips_rest (env : Env) (store : DbStore)
    (h : load_data env = none) :
    mainRun env store = (0, [Stage.download, Stage.load], store) ∧
    Stage.clean ∉ (mainRun env store).2.1 ∧
    Stage.transform ∉ (mainRun env store).2.1 ∧
    Stage.persist ∉ (mainRun env store).2.1 ∧
    Stage.visualize ∉ (mainRun env store).2.1 := by
  have hrun : mainRun env store = (0, [Stage.download, Stage.load], store) := by
    simp [mainRun, h]
  refine ⟨hrun, ?_, ?_, ?_, ?_⟩ <;> rw [hrun] <;> simp

def env10 : Env := ⟨false, none, false, false⟩

def store10 : DbStore := ⟨[]⟩

/-- Witness for C10 at a concrete environment whose load fails. -/
theorem C10_witness :
    mainRun env10 store10 = (0, [Stage.download, Stage.load], store10) ∧
    Stage.clean ∉ (mainRun env10 store10).2.1 ∧
    Stage.transform ∉ (mainRun env10 store10).2.1 ∧
    Stage.persist ∉ (mainRun env10 store10).2.1 ∧
    Stage.visualize ∉ (mainRun env10 store10).2.1 :=
  C10_load_failure_skips_rest env10 store10 rfl

theorem setCol_mem_cols (df : DataFrame) (c : String) (vs : List Value) :
    c ∈ (setCol df c vs).cols := by
  cases hci : colIdx df c with
  | some i =>
    simp only [setCol, hci]
    exact colIdx_mem hci
  | none =>
    simp only [setCol, hci]
    simp

/-- Claim C5, evidence of the code bug: on the repository's own test
fixtures (`test.py`, `setUp`), `clean_data` does not return a cleaned
table at all — it returns `None`.  The track table carries the same
non-key column names as the album projection, so the merge suffixes them
(`release_date_x`/`release_date_y`; shown in the second conjunct), the
subsequent `result["release_date"]` raises `KeyError`, and the `except`
branch swallows it.  The claimed invariants (" Label1 " → "Label1",
"invalid_date" → null, …), which `test.py` itself asserts, never get a
chance to hold. -/
theorem C5_clean_data_fails_on_test_fixtures :
    (clean_data sampleTracks sampleAlbums).1 = none ∧
    ((selectCols sampleAlbums cleanCols).bind
        (fun a1 => mergeLeft a1 (renameCol sampleTracks "id" "track_id") "track_id")).map
      (fun m => (decide ("release_date" ∈ m.cols),
                 decide ("release_date_x" ∈ m.cols),
                 decide ("release_date_y" ∈ m.cols)))
      = some (false, true, true) := by
  constructor
  · decide
  · decide

/-- Claim C8, counterexample: neither stage is pure in its argument.
`clean_data` renames the caller's `id` column to `track_id` in place
(line 61, `inplace=True`), and `transform_data` adds the `radio_mix`
column to the caller's table in place (line 94), so the table objects
passed in do not come back unchanged. -/
theorem C8_counterexample :
    (clean_data okTracks sampleAlbums).2 ≠ okTracks ∧
    (transform_data cleanedOk).2 ≠ cleanedOk := by
  constructor
  · decide
  · decide

/-- Claim C8, amended.  The stages are pure except for two specific in-place
mutations of their argument: `clean_data` only renames the tracks table's
`id` column — a table without an `id` column comes back unchanged — and
every successful `transform_data` call leaves a `radio_mix` column on the
caller's table. -/
theorem C8_amended_mutation_exact :
    (∀ tracks albums : DataFrame, "id" ∉ tracks.cols →
        (clean_data tracks albums).2 = tracks) ∧
    (∀ tracks out : DataFrame, (transform_data tracks).1 = some out →
        "radio_mix" ∈ (transform_data tracks).2.cols) := by
  constructor
  · intro tracks albums hid
    simp only [clean_data, renameCol]
    have hmap : tracks.cols.map (fun c => if c = "id" then "track_id" else c)
        = tracks.cols := by
      have : ∀ c ∈ tracks.cols, (if c = "id" then "track_id" else c) = c := by
        intro c hc
        rw [if_neg]
        intro e
        exact hid (e ▸ hc)
      simp only [List.map_congr_left this, List.map_id']
    rw [hmap]
  · intro tracks out h
    obtain ⟨di, hdi, ht2, _⟩ := transform_data_some h
    rw [ht2]
    exact setCol_mem_cols tracks "radio_mix" _

def w8cleanTracks : DataFrame := ⟨["name"], [[.str "x"]]⟩

/-- Witness for the amended C8 at concrete tables. -/
theorem C8_amended_witness :
    (clean_data w8cleanTracks sampleAlbums).2 = w8cleanTracks ∧
    "radio_mix" ∈ (transform_data cleanedOk).2.cols :=
  ⟨C8_amended_mutation_exact.1 w8cleanTracks sampleAlbums (by decide),
   C8_amended_mutation_exact.2 cleanedOk transformedOk (by decide)⟩

/-- Claim C1.  Every row of a table returned by `transform_data` satisfies
both filter predicates of line 95–97: its `explicit` cell satisfies the
code's `== False` test (it is the boolean `False` — or the number `0`,
which Python equates with `False`), and its `track_popularity` cell is a
present number strictly greater than 50; in particular a row with missing
popularity can never appear, since `NA > 50` is `NA` and a missing mask
entry drops the row. -/
theorem C1_transform_filter (tracks out : DataFrame)
    (h : (transform_data tracks).1 = some out) :
    ∃ ei pi, colIdx out "explicit" = some ei ∧
      colIdx out "track_popularity" = some pi ∧
      ∀ r ∈ out.rows,
        (r.getD ei .na = Value.bool false ∨ r.getD ei .na = Value.num 0) ∧
        ∃ n : Int, r.getD pi .na = Value.num n ∧ 50 < n := by
  obtain ⟨di, hdi, ht2, ei, pi, hei, hpi, hcols, hrows⟩ := transform_data_some h
  have heio : colIdx out "explicit" = some ei := by
    unfold colIdx at hei ⊢
    rw [hcols]
    exact hei
  have hpio : colIdx out "track_popularity" = some pi := by
    unfold colIdx at hpi ⊢
    rw [hcols]
    exact hpi
  refine ⟨ei, pi, heio, hpio, ?_⟩
  intro r hr
  rw [hrows, List.mem_filter] at hr
  have hmask := of_decide_eq_true hr.2
  obtain ⟨hx, hy⟩ := kleeneAnd_eq_true hmask
  exact ⟨valEqFalse_eq_true hx, valGt50_eq_true hy⟩

/-- Witness for C1: the transform of the cleaned sample table. -/
theorem C1_witness :
    ∃ ei pi, colIdx transformedOk "explicit" = some ei ∧
      colIdx transformedOk "track_popularity" = some pi ∧
      ∀ r ∈ transformedOk.rows,
        (r.getD ei .na = Value.bool false ∨ r.getD ei .na = Value.num 0) ∧
        ∃ n : Int, r.getD pi .na = Value.num n ∧ 50 < n :=
  C1_transform_filter cleanedOk transformedOk (by decide)

/-- Claim C2.  In every table returned by `transform_data` (from a
rectangular input), a row whose `duration_sec` cell holds a number `n` has
`radio_mix = True` exactly when `n ≤ 180`. -/
theorem C2_radio_mix_iff (tracks out : DataFrame) (hWF : tracks.WF)
    (h : (transform_data tracks).1 = some out) :
    ∃ di ri, colIdx out "duration_sec" = some di ∧
      colIdx out "radio_mix" = some ri ∧
      ∀ r ∈ out.rows, ∀ n : Int, r.getD di .na = Value.num n →
        (r.getD ri .na = Value.bool true ↔ n ≤ 180) := by
  obtain ⟨di, hdi, ht2, ei, pi, hei, hpi, hcols, hrows⟩ := transform_data_some h
  obtain ⟨ri, hri, hpres, hlink⟩ := setCol_self_link tracks hWF "radio_mix"
      (fun r => (valLe180 (r.getD di .na)).getD Value.na)
  have hdi2 : colIdx (transform_data tracks).2 "duration_sec" = some di := by
    rw [ht2]
    exact hpres "duration_sec" di hdi (by decide)
  have hri2 : colIdx (transform_data tracks).2 "radio_mix" = some ri := by
    rw [ht2]
    exact hri
  have hdio : colIdx out "duration_sec" = some di := by
    unfold colIdx at hdi2 ⊢
    rw [hcols]
    exact hdi2
  have hrio : colIdx out "radio_mix" = some ri := by
    unfold colIdx at hri2 ⊢
    rw [hcols]
    exact hri2
  refine ⟨di, ri, hdio, hrio, ?_⟩
  intro r hr n hn
  rw [hrows] at hr
  have hrmem : r ∈ (transform_data tracks).2.rows := (List.mem_filter.mp hr).1
  rw [ht2] at hrmem
  obtain ⟨r0, hr0, hrad, hother⟩ := hlink r hrmem
  have hdne : di ≠ ri := by
    intro e
    have h1 : (transform_data tracks).2.cols.getD di "" = "duration_sec" :=
      colIdx_getD hdi2
    have h2 : (transform_data tracks).2.cols.getD ri "" = "radio_mix" :=
      colIdx_getD hri2
    rw [e] at h1
    exact absurd (h1.symm.trans h2) (by decide)
  have hr0d : r0.getD di .na = Value.num n := (hother di hdne).symm.trans hn
  rw [hr0d] at hrad
  rw [hrad]
  simp [valLe180]

/-- Witness for C2 at the cleaned sample table. -/
theorem C2_witness :
    ∃ di ri, colIdx transformedOk "duration_sec" = some di ∧
      colIdx transformedOk "radio_mix" = some ri ∧
      ∀ r ∈ transformedOk.rows, ∀ n : Int, r.getD di .na = Value.num n →
        (r.getD ri .na = Value.bool true ↔ n ≤ 180) :=
  C2_radio_mix_iff cleanedOk transformedOk (by decide) (by decide)

/-- Claim C9.  In the table `transform_data` computed (the caller's table
with the `radio_mix` column assigned), every row whose `duration_sec` cell
is missing gets a missing `radio_mix` cell — not `False` — and the
returned rows are exactly the rows passing the mask built from the
`explicit` and `track_popularity` cells alone; `radio_mix` is never
consulted by the filter. -/
theorem C9_null_duration_radio_na (tracks out : DataFrame) (hWF : tracks.WF)
    (h : (transform_data tracks).1 = some out) :
    ∃ di ri ei pi,
      colIdx (transform_data tracks).2 "duration_sec" = some di ∧
      colIdx (transform_data tracks).2 "radio_mix" = some ri ∧
      colIdx (transform_data tracks).2 "explicit" = some ei ∧
      colIdx (transform_data tracks).2 "track_popularity" = some pi ∧
      (∀ r ∈ (transform_data tracks).2.rows,
          r.getD di .na = Value.na → r.getD ri .na = Value.na) ∧
      out.rows = (transform_data tracks).2.rows.filter
        (fun r => decide (kleeneAnd (valEqFalse (r.getD ei .na))
            ((valGt50 (r.getD pi .na)).getD Value.na) = Value.bool true)) := by
  obtain ⟨di, hdi, ht2, ei, pi, hei, hpi, hcols, hrows⟩ := transform_data_some h
  obtain ⟨ri, hri, hpres, hlink⟩ := setCol_self_link tracks hWF "radio_mix"
      (fun r => (valLe180 (r.getD di .na)).getD Value.na)
  have hdi2 : colIdx (transform_data tracks).2 "duration_sec" = some di := by
    rw [ht2]
    exact hpres "duration_sec" di hdi (by decide)
  have hri2 : colIdx (transform_data tracks).2 "radio_mix" = some ri := by
    rw [ht2]
    exact hri
  refine ⟨di, ri, ei, pi, hdi2, hri2, hei, hpi, ?_, hrows⟩
  intro r hr hna
  rw [ht2] at hr
  obtain ⟨r0, hr0, hrad, hother⟩ := hlink r hr
  have hdne : di ≠ ri := by
    intro e
    have h1 : (transform_data tracks).2.cols.getD di "" = "duration_sec" :=
      colIdx_getD hdi2
    have h2 : (transform_data tracks).2.cols.getD ri "" = "radio_mix" :=
      colIdx_getD hri2
    rw [e] at h1
    exact absurd (h1.symm.trans h2) (by decide)
  have hr0d : r0.getD di .na = Value.na := (hother di hdne).symm.trans hna
  rw [hr0d] at hrad
  rw [hrad]
  rfl

/-- Witness for C9 at the cleaned sample table (its third row has a
missing duration). -/
theorem C9_witness :
    ∃ di ri ei pi,
      colIdx (transform_data cleanedOk).2 "duration_sec" = some di ∧
      colIdx (transform_data cleanedOk).2 "radio_mix" = some ri ∧
      colIdx (transform_data cleanedOk).2 "explicit" = some ei ∧
      colIdx (transform_data cleanedOk).2 "track_popularity" = some pi ∧
      (∀ r ∈ (transform_data cleanedOk).2.rows,
          r.getD di .na = Value.na → r.getD ri .na = Value.na) ∧
      transformedOk.rows = (transform_data cleanedOk).2.rows.filter
        (fun r => decide (kleeneAnd (valEqFalse (r.getD ei .na))
            ((valGt50 (r.getD pi .na)).getD Value.na) = Value.bool true)) :=
  C9_null_duration_radio_na cleanedOk transformedOk (by decide) (by decide)

theorem albums1_key_idx {albums albums1 : DataFrame}
    (hsel : selectCols albums cleanCols = some albums1) :
    colIdx albums1 "track_id" = some 0 := by
  obtain ⟨hcols, _⟩ := selectCols_some hsel
  unfold colIdx
  rw [hcols]
  decide

theorem mergeLeft_row_shape {L R m : DataFrame} {key : String} {li ri : Nat}
    (hli : colIdx L key = some li) (hri : colIdx R key = some ri)
    (hm : mergeLeft L R key = some m) :
    (∀ rm ∈ m.rows, ∃ l ∈ L.rows, ∃ rest, rm = l ++ rest) ∧
    (∀ l ∈ L.rows, ∃ rest, l ++ rest ∈ m.rows) := by
  obtain ⟨hc, hr⟩ := mergeLeft_some hli hri hm
  constructor
  · intro rm hrm
    rw [hr] at hrm
    obtain ⟨chunk, hchunk, hrmc⟩ := List.mem_flatten.mp hrm
    obtain ⟨l, hl, rfl⟩ := List.mem_map.mp hchunk
    obtain ⟨rest, hrest⟩ := mergeRowFor_mem hrmc
    exact ⟨l, hl, rest, hrest⟩
  · intro l hl
    obtain ⟨rest, hrest⟩ := mergeRowFor_self R li ri l
    refine ⟨rest, ?_⟩
    rw [hr]
    exact List.mem_flatten.mpr ⟨_, List.mem_map_of_mem _ hl, hrest⟩

/-- In the albums-left merge of `clean_data`, every merged row's key cell
(position 0) is the key of an album row. -/
theorem merge_key_from_albums {albums albums1 R m : DataFrame} {ri : Nat}
    (hsel : selectCols albums cleanCols = some albums1)
    (hri : colIdx R "track_id" = some ri)
    (hm : mergeLeft albums1 R "track_id" = some m) :
    ∀ rm ∈ m.rows, ∃ a ∈ albums1.rows, rm.getD 0 .na = a.getD 0 .na ∧
      rm.take cleanCols.length = a := by
  obtain ⟨hcols, hlen⟩ := selectCols_some hsel
  intro rm hrm
  obtain ⟨a, ha, rest, rfl⟩ :=
    (mergeLeft_row_shape (albums1_key_idx hsel) hri hm).1 rm hrm
  have halen : 0 < a.length := by
    rw [hlen a ha]
    decide
  exact ⟨a, ha, getD_append_left halen, List.take_left' (hlen a ha)⟩

/-- Claim C4.  The merge of `clean_data` (line 65) is a left join with the
projected albums table as the left operand: its key column sits at
position 0, every projected album row appears as the initial segment of
some merged row, and a track row whose key matches no album row
contributes nothing — no merged row carries its key. -/
theorem C4_merge_is_albums_left_join
    (tracks albums albums1 m : DataFrame) (ti : Nat)
    (hsel : selectCols albums cleanCols = some albums1)
    (hti : colIdx (renameCol tracks "id" "track_id") "track_id" = some ti)
    (hm : mergeLeft albums1 (renameCol tracks "id" "track_id") "track_id" = some m) :
    colIdx m "track_id" = some 0 ∧
    (∀ a ∈ albums1.rows, ∃ rm ∈ m.rows, rm.take cleanCols.length = a) ∧
    (∀ t ∈ (renameCol tracks "id" "track_id").rows,
        (∀ a ∈ albums1.rows, a.getD 0 .na ≠ t.getD ti .na) →
        ∀ rm ∈ m.rows, rm.getD 0 .na ≠ t.getD ti .na) := by
  obtain ⟨hcols, hlen⟩ := selectCols_some hsel
  have hli := albums1_key_idx hsel
  obtain ⟨hmcols, hmrows⟩ := mergeLeft_some hli hti hm
  refine ⟨?_, ?_, ?_⟩
  · unfold colIdx
    rw [hmcols]
    unfold suffixedLeftCols
    rw [hcols]
    simp [cleanCols]
  · intro a ha
    obtain ⟨rest, hrest⟩ := (mergeLeft_row_shape hli hti hm).2 a ha
    exact ⟨a ++ rest, hrest, List.take_left' (hlen a ha)⟩
  · intro t ht hnomatch rm hrm
    obtain ⟨a, ha, hkey, _⟩ := merge_key_from_albums hsel hti hm rm hrm
    rw [hkey]
    exact hnomatch a ha

def w4A1 : DataFrame := (selectCols sampleAlbums cleanCols).getD ⟨[], []⟩

def w4M : DataFrame :=
  (mergeLeft w4A1 (renameCol okTracks "id" "track_id") "track_id").getD ⟨[], []⟩

/-- Witness for C4 at the sample albums table and the non-colliding track
table. -/
theorem C4_witness :
    colIdx w4M "track_id" = some 0 ∧
    (∀ a ∈ w4A1.rows, ∃ rm ∈ w4M.rows, rm.take cleanCols.length = a) ∧
    (∀ t ∈ (renameCol okTracks "id" "track_id").rows,
        (∀ a ∈ w4A1.rows, a.getD 0 .na ≠ t.getD 0 .na) →
        ∀ rm ∈ w4M.rows, rm.getD 0 .na ≠ t.getD 0 .na) :=
  C4_merge_is_albums_left_join okTracks sampleAlbums w4A1 w4M 0
    (by decide) (by decide) (by decide)

def exT3 : DataFrame :=
  ⟨["id", "track_popularity", "explicit"],
   [[.num 4, .num 60, .bool false]]⟩

/-- Claim C3, counterexample: the track with identifier 4 matches no album
row of `sampleAlbums`, yet the table produced by `clean_data` does not
contain it at all — the left join keeps album rows, not track rows, so an
unmatched track identifier is dropped instead of appearing with nulls in
the album-only fields.  The table is returned (first conjunct), its key
column is `track_id` at position 0 (second), and no row carries the key 4
(third). -/
theorem C3_counterexample :
    (clean_data exT3 sampleAlbums).1.isSome = true ∧
    ((clean_data exT3 sampleAlbums).1.map
        (fun df => decide (df.cols.getD 0 "" = "track_id"))) = some true ∧
    ((clean_data exT3 sampleAlbums).1.map
        (fun df => df.rows.all (fun r => decide (r.getD 0 Value.na ≠ Value.num 4))))
      = some true := by
  refine ⟨?_, ?_, ?_⟩
  · decide
  · decide
  · decide

/-- Claim C3, amended.  In the merge performed by `clean_data`: the first
five positions of every merged row are a projected album row (album-side
values occupy the shared/projected columns); a column name shared by both
sides (other than the key) is not overwritten but suffixed — both `c_x`
(album side) and `c_y` (track side) appear among the merged columns, and
the later `result["c"]` accesses of `clean_data` then fail; an ALBUM row
whose key matches no track row appears padded with missing cells; and a
track row whose key matches no album row is absent — no merged row carries
its key. -/
theorem C3_amended_merge_semantics
    (tracks albums albums1 m : DataFrame) (ti : Nat)
    (hsel : selectCols albums cleanCols = some albums1)
    (hti : colIdx (renameCol tracks "id" "track_id") "track_id" = some ti)
    (hm : mergeLeft albums1 (renameCol tracks "id" "track_id") "track_id" = some m) :
    (∀ rm ∈ m.rows, ∃ a ∈ albums1.rows, rm.take cleanCols.length = a) ∧
    (∀ c, c ≠ "track_id" → c ∈ albums1.cols →
        c ∈ (renameCol tracks "id" "track_id").cols →
        (c ++ "_x") ∈ m.cols ∧ (c ++ "_y") ∈ m.cols) ∧
    (∀ a ∈ albums1.rows,
        (∀ t ∈ (renameCol tracks "id" "track_id").rows,
            ¬ t.getD ti .na = a.getD 0 .na) →
        ∃ rest, (∀ v ∈ rest, v = Value.na) ∧ a ++ rest ∈ m.rows) ∧
    (∀ t ∈ (renameCol tracks "id" "track_id").rows,
        (∀ a ∈ albums1.rows, a.getD 0 .na ≠ t.getD ti .na) →
        ∀ rm ∈ m.rows, rm.getD 0 .na ≠ t.getD ti .na) := by
  have hli := albums1_key_idx hsel
  obtain ⟨hmcols, hmrows⟩ := mergeLeft_some hli hti hm
  refine ⟨?_, ?_, ?_, ?_⟩
  · intro rm hrm
    obtain ⟨a, ha, _, htake⟩ := merge_key_from_albums hsel hti hm rm hrm
    exact ⟨a, ha, htake⟩
  · intro c hck hcl hcr
    rw [hmcols]
    exact ⟨List.mem_append_left _ (suffixedLeftCols_mem_x hck hcl hcr),
           List.mem_append_right _ (suffixedRightCols_mem_y hti hck hcl hcr)⟩
  · intro a ha hnomatch
    have hli0 : a.getD 0 .na = a.getD 0 .na := rfl
    refine ⟨(rightKeepIdxs (renameCol tracks "id" "track_id") ti).map
        (fun _ => Value.na), ?_, ?_⟩
    · intro v hv
      obtain ⟨i, _, rfl⟩ := List.mem_map.mp hv
      rfl
    · rw [hmrows]
      exact List.mem_flatten.mpr ⟨_, List.mem_map_of_mem _ ha,
        mergeRowFor_nullfill hnomatch⟩
  · intro t ht hnomatch rm hrm
    obtain ⟨a, ha, hkey, _⟩ := merge_key_from_albums hsel hti hm rm hrm
    rw [hkey]
    exact hnomatch a ha

def w3A1 : DataFrame := (selectCols sampleAlbums cleanCols).getD ⟨[], []⟩

def w3M : DataFrame :=
  (mergeLeft w3A1 (renameCol sampleTracks "id" "track_id") "track_id").getD ⟨[], []⟩

/-- Witness for the amended C3 at the sample tables (whose track table
shares the four non-key column names with the album projection). -/
theorem C3_amended_witness :
    (∀ rm ∈ w3M.rows, ∃ a ∈ w3A1.rows, rm.take cleanCols.length = a) ∧
    (∀ c, c ≠ "track_id" → c ∈ w3A1.cols →
        c ∈ (renameCol sampleTracks "id" "track_id").cols →
        (c ++ "_x") ∈ w3M.cols ∧ (c ++ "_y") ∈ w3M.cols) ∧
    (∀ a ∈ w3A1.rows,
        (∀ t ∈ (renameCol sampleTracks "id" "track_id").rows,
            ¬ t.getD 0 .na = a.getD 0 .na) →
        ∃ rest, (∀ v ∈ rest, v = Value.na) ∧ a ++ rest ∈ w3M.rows) ∧
    (∀ t ∈ (renameCol sampleTracks "id" "track_id").rows,
        (∀ a ∈ w3A1.rows, a.getD 0 .na ≠ t.getD 0 .na) →
        ∀ rm ∈ w3M.rows, rm.getD 0 .na ≠ t.getD 0 .na) :=
  C3_amended_merge_semantics sampleTracks sampleAlbums w3A1 w3M 0
    (by decide) (by decide) (by decide)
